import Mathlib

/-
Verification development for the shelly-blu-ht thermostat control engine.

The definitions below are a shallow embedding of the Python sources:
  - src/api/thermostat.py : configuration model, persisted state,
    ThermostatManager.update_state, calculate_control_decision
  - src/api/main.py : set_thermostat_config endpoint, the background
    thermostat_control_loop body, and the control-loop part of health_check.

Temperatures, time stamps (seconds) and durations are rationals; the Python
float infinity used for "no previous switch change" is modelled by an
Option, with none meaning infinity.  Reason strings are modelled by an
inductive type with one constructor per return statement of the source,
since only the identity of the message (not its formatted numbers) is used
by the claims.  Remote-device interactions of a single loop iteration are
modelled by an environment record holding the values the device returns;
the exception-free executions are the ones embedded.
-/

set_option linter.unusedVariables false

/-- Operating mode of the thermostat (thermostat.py, class ThermostatMode). -/
inductive ThermostatMode
  | AUTO
  | ECO
  | ON
  | OFF
deriving DecidableEq, Repr

/-- One constructor per return statement of calculate_control_decision
(thermostat.py lines 323-355); the constructor stands for the reason
string produced at that return. -/
inductive DecisionReason
  | deadbandMaintainOn
  | deadbandMaintainOff
  | heatingAlreadyOn
  | turningOn
  | heatingLockedOff
  | targetReachedAlreadyOff
  | turningOff
  | targetLockedOn
  | unexpectedMaintain
deriving DecidableEq, Repr

/-- The three temperature regions of the decision function, plus the
unreachable fallback return. -/
inductive DecisionBranch
  | deadband
  | belowLow
  | atOrAboveHigh
  | fallback
deriving DecidableEq, Repr

/-- Which structural branch of calculate_control_decision produced a
given reason. -/
def DecisionReason.branch : DecisionReason → DecisionBranch
  | .deadbandMaintainOn => .deadband
  | .deadbandMaintainOff => .deadband
  | .heatingAlreadyOn => .belowLow
  | .turningOn => .belowLow
  | .heatingLockedOff => .belowLow
  | .targetReachedAlreadyOff => .atOrAboveHigh
  | .turningOff => .atOrAboveHigh
  | .targetLockedOn => .atOrAboveHigh
  | .unexpectedMaintain => .fallback

/-- Decision strings stored in ThermostatState.last_control_decision:
either a decision-engine reason or one of the fixed manual-mode strings
used by the control loop (main.py lines 1076 and 1098). -/
inductive ControlDecisionMsg
  | engine (r : DecisionReason)
  | manualModeOn
  | manualModeOff
deriving DecidableEq, Repr

/-- Error messages recorded in control_loop_state.last_error by the
AUTO/ECO branch of the control loop (main.py lines 1143 and 1195). -/
inductive LoopError
  | noTempData
  | switchVerifyFailed (expected : Bool) (got : Option Bool)
deriving DecidableEq, Repr

/-- ThermostatConfig (thermostat.py lines 32-98).  Field values are held
as rationals; the pydantic bound checks are the separate predicate
thermostat_config_valid below, applied at the accepting boundary. -/
structure ThermostatConfig where
  target_temp : ℚ
  eco_temp : ℚ
  mode : ThermostatMode
  hysteresis : ℚ
  min_on_time : ℚ
  min_off_time : ℚ
  temp_sample_count : ℚ
  control_interval : ℚ
deriving DecidableEq, Repr

/-- ThermostatState (thermostat.py lines 101-113): persisted actuator
state.  last_switch_change is a time stamp in seconds, none when no
switch change is on record. -/
structure ThermostatState where
  switch_on : Bool
  last_switch_change : Option ℚ
  last_control_decision : Option ControlDecisionMsg
deriving DecidableEq, Repr

/-- control_loop_state (thermostat.py lines 363-370): in-memory health
state of the background loop. -/
structure ControlLoopState where
  running : Bool
  last_run : Option ℚ
  last_error : Option LoopError
  consecutive_errors : ℕ
  last_mode : Option ThermostatMode
  mode_action_done : Bool
deriving DecidableEq, Repr

/-- Default ThermostatConfig field values (thermostat.py lines 33-78). -/
def default_config : ThermostatConfig :=
  { target_temp := 22
    eco_temp := 18
    mode := .AUTO
    hysteresis := 0.5
    min_on_time := 30
    min_off_time := 10
    temp_sample_count := 3
    control_interval := 180 }

/-- Default ThermostatState field values (thermostat.py lines 101-113). -/
def default_state : ThermostatState :=
  { switch_on := false
    last_switch_change := none
    last_control_decision := none }

/-- Initial control_loop_state dictionary (thermostat.py lines 363-370). -/
def initial_control_loop_state : ControlLoopState :=
  { running := false
    last_run := none
    last_error := none
    consecutive_errors := 0
    last_mode := none
    mode_action_done := false }

/-- Comparison time_since_change >= limit from the source, where
time_since_change is float infinity (modelled none) when there was no
previous switch change: infinity compares greater-or-equal to anything. -/
def dwell_at_least (time_since_change : Option ℚ) (limit : ℚ) : Bool :=
  match time_since_change with
  | none => true
  | some d => decide (limit ≤ d)

/-- calculate_control_decision (thermostat.py lines 296-355).  The now
argument makes the source implicit datetime.utcnow() explicit; time
stamps are in seconds and the division by 60 converts to minutes as in
the source. -/
def calculate_control_decision (current_temp target_temp hysteresis : ℚ)
    (current_switch_on : Bool) (last_switch_change : Option ℚ)
    (min_on_time min_off_time : ℚ) (now : ℚ) : Bool × DecisionReason :=
  let time_since_change : Option ℚ :=
    match last_switch_change with
    | some t => some ((now - t) / 60)
    | none => none
  let turn_on_threshold := target_temp - hysteresis
  let turn_off_threshold := target_temp + hysteresis
  if turn_on_threshold ≤ current_temp ∧ current_temp < turn_off_threshold then
    if current_switch_on then
      (current_switch_on, .deadbandMaintainOn)
    else
      (current_switch_on, .deadbandMaintainOff)
  else if current_temp < turn_on_threshold then
    if current_switch_on then
      (true, .heatingAlreadyOn)
    else if dwell_at_least time_since_change min_off_time then
      (true, .turningOn)
    else
      (false, .heatingLockedOff)
  else if current_temp ≥ turn_off_threshold then
    if ¬ current_switch_on then
      (false, .targetReachedAlreadyOff)
    else if dwell_at_least time_since_change min_on_time then
      (false, .turningOff)
    else
      (true, .targetLockedOn)
  else
    (current_switch_on, .unexpectedMaintain)

/-- ThermostatManager.update_state (thermostat.py lines 246-263).  The
returned Bool is the changed flag that decides whether the state is
saved to disk. -/
def update_state (s : ThermostatState) (switch_on : Bool)
    (decision : Option ControlDecisionMsg) (now : ℚ) : ThermostatState × Bool :=
  let changed := false
  let sc :=
    if switch_on ≠ s.switch_on then
      ({ s with last_switch_change := some now, switch_on := switch_on }, true)
    else
      (s, changed)
  let sc2 :=
    match decision with
    | some d =>
        if some d ≠ sc.1.last_control_decision then
          ({ sc.1 with last_control_decision := some d }, true)
        else
          sc
    | none => sc
  sc2

/-- Bound checks applied where a ThermostatConfig is accepted: the
pydantic Field ge/le constraints of thermostat.py lines 33-78 together
with the eco_temp_must_be_valid validator of lines 80-84. -/
def thermostat_config_valid (c : ThermostatConfig) : Bool :=
  decide (18 ≤ c.target_temp ∧ c.target_temp ≤ 24) &&
  decide (18 ≤ c.eco_temp ∧ c.eco_temp ≤ 24) &&
  decide (0.1 ≤ c.hysteresis ∧ c.hysteresis ≤ 2) &&
  decide (1 ≤ c.min_on_time ∧ c.min_on_time ≤ 120) &&
  decide (1 ≤ c.min_off_time ∧ c.min_off_time ≤ 120) &&
  decide (1 ≤ c.temp_sample_count ∧ c.temp_sample_count ≤ 10) &&
  decide (60 ≤ c.control_interval ∧ c.control_interval ≤ 600) &&
  decide (c.eco_temp ≤ c.target_temp)

/-- ThermostatManager (thermostat.py lines 175-263), reduced to the
in-memory configuration and state it manages. -/
structure Manager where
  config : ThermostatConfig
  state : ThermostatState
deriving DecidableEq, Repr

/-- ThermostatManager.get_config (thermostat.py lines 233-235). -/
def get_config (m : Manager) : ThermostatConfig :=
  m.config

/-- POST /api/v1/thermostat/config (main.py lines 740-803).  FastAPI
validates the request body against the pydantic model before the handler
runs; an invalid body is rejected with 422 and the handler, which stores
the new configuration, is never entered.  The Bool result records
whether the update was accepted. -/
def set_thermostat_config (m : Manager) (new_config : ThermostatConfig) :
    Manager × Bool :=
  if thermostat_config_valid new_config then
    ({ m with config := new_config }, true)
  else
    (m, false)

/-- External observations made by one exception-free control-loop
iteration: the temperature samples the time-series query returns, the
output field of the two Switch.GetStatus reads (the second one the
verify read after a command), and the current time. -/
structure IterEnv where
  temps : List ℚ
  switch_output : Option Bool
  verify_output : Option Bool
  now : ℚ
deriving DecidableEq, Repr

/-- Result of one control-loop iteration: the persisted thermostat
state, the in-memory loop state, and the Switch.Set commands issued
(argument of each call, in order). -/
structure LoopResult where
  state : ThermostatState
  loop : ControlLoopState
  commands : List Bool
deriving DecidableEq, Repr

/-- The act-on-decision block of the AUTO/ECO branch (main.py lines
1176-1200): if the desired state differs from the current one, command
the switch, re-read it after the settle delay, and either persist the
new state (verify read matches) or record a verification error and
leave the persisted state alone; if the desired state equals the
current one, persist only to refresh the decision reason. -/
def execute_decision (ts : ThermostatState) (ls : ControlLoopState)
    (should_be_on current_switch_on : Bool) (reason : DecisionReason)
    (env : IterEnv) : LoopResult :=
  if should_be_on ≠ current_switch_on then
    let actual_state := env.verify_output
    if actual_state = some should_be_on then
      { state := (update_state ts should_be_on (some (.engine reason)) env.now).1
        loop := ls
        commands := [should_be_on] }
    else
      { state := ts
        loop := { ls with
          last_error := some (.switchVerifyFailed should_be_on actual_state)
          consecutive_errors := ls.consecutive_errors + 1 }
        commands := [should_be_on] }
  else
    { state := (update_state ts current_switch_on (some (.engine reason)) env.now).1
      loop := ls
      commands := [] }

/-- One iteration of thermostat_control_loop (main.py lines 1051-1200),
restricted to exception-free executions: record the run time, detect a
mode change, then dispatch on the mode.  ON/OFF command the actuator
once per mode entry and verify; AUTO/ECO average the returned samples,
compute the control decision and act on it via execute_decision.  The
trailing sleep and the logging have no observable effect here. -/
def thermostat_control_loop_iteration (config : ThermostatConfig)
    (ts : ThermostatState) (ls0 : ControlLoopState) (env : IterEnv) :
    LoopResult :=
  let ls1 := { ls0 with last_run := some env.now }
  let ls :=
    if ls1.last_mode ≠ some config.mode then
      { ls1 with last_mode := some config.mode, mode_action_done := false }
    else
      ls1
  match config.mode with
  | .ON =>
      if ¬ ls.mode_action_done then
        if env.verify_output = some true then
          { state := (update_state ts true (some .manualModeOn) env.now).1
            loop := { ls with mode_action_done := true }
            commands := [true] }
        else
          { state := ts, loop := ls, commands := [true] }
      else
        { state := ts, loop := ls, commands := [] }
  | .OFF =>
      if ¬ ls.mode_action_done then
        if env.verify_output = some false then
          { state := (update_state ts false (some .manualModeOff) env.now).1
            loop := { ls with mode_action_done := true }
            commands := [false] }
        else
          { state := ts, loop := ls, commands := [false] }
      else
        { state := ts, loop := ls, commands := [] }
  | .AUTO | .ECO =>
      let indoor_temp : Option ℚ :=
        if env.temps ≠ [] then some (env.temps.sum / env.temps.length) else none
      match indoor_temp with
      | none =>
          { state := ts
            loop := { ls with
              last_error := some .noTempData
              consecutive_errors := ls.consecutive_errors + 1 }
            commands := [] }
      | some temp =>
          let ls2 := { ls with last_error := none, consecutive_errors := 0 }
          let target :=
            if config.mode = .AUTO then config.target_temp else config.eco_temp
          let current_switch_on := env.switch_output.getD false
          let dec :=
            calculate_control_decision temp target config.hysteresis
              current_switch_on ts.last_switch_change
              config.min_on_time config.min_off_time env.now
          execute_decision ts ls2 dec.1 current_switch_on dec.2 env

/-- The control-loop staleness test of health_check (main.py lines
296-304): healthy starts true and is cleared exactly when a last run is
on record and lies more than 360 seconds in the past. -/
def control_loop_healthy (now : ℚ) (last_run : Option ℚ) : Bool :=
  match last_run with
  | some t => if now - t > 360 then false else true
  | none => true

/-- C2: for every target_temp, every hysteresis > 0, and every
current_temp with target_temp - hysteresis <= current_temp <
target_temp + hysteresis, calculate_control_decision returns a desired
state equal to the input current_switch_on, for both values of
current_switch_on and every last_switch_change, min_on_time and
min_off_time: the deadband never requests a flip. -/
theorem c2_hysteresis_containment (current_temp target_temp hysteresis : ℚ)
    (current_switch_on : Bool) (last_switch_change : Option ℚ)
    (min_on_time min_off_time now : ℚ)
    (hpos : 0 < hysteresis)
    (hlo : target_temp - hysteresis ≤ current_temp)
    (hhi : current_temp < target_temp + hysteresis) :
    (calculate_control_decision current_temp target_temp hysteresis
      current_switch_on last_switch_change min_on_time min_off_time now).1
      = current_switch_on := by
  simp only [calculate_control_decision]
  rw [if_pos ⟨hlo, hhi⟩]
  cases current_switch_on <;> rfl

/-- Witness for c2_hysteresis_containment at the spec example
target 22, hysteresis 0.5, mid-deadband temperature 22 with the
actuator on. -/
theorem c2_hysteresis_containment_witness :
    (calculate_control_decision 22 22 0.5 true (some 0) 30 10 180).1 = true :=
  c2_hysteresis_containment 22 22 0.5 true (some 0) 30 10 180
    (by norm_num) (by norm_num) (by norm_num)

/-- C1: with a non-null last_switch_change, any returned state change
respects the dwell constraint in its direction (min_off_time for
off-to-on, min_on_time for on-to-off); and with prior state off and
current_temp below target minus hysteresis, the decision is off while
the dwell is below min_off_time and on once it reaches min_off_time.
Dwell is the elapsed minutes (now - t) / 60 with time stamps in
seconds, exactly as the source computes it. -/
theorem c1_dwell_time_enforcement (current_temp target_temp hysteresis : ℚ)
    (current_switch_on : Bool) (t min_on_time min_off_time now : ℚ) :
    ((calculate_control_decision current_temp target_temp hysteresis
        current_switch_on (some t) min_on_time min_off_time now).1
        ≠ current_switch_on →
      (if current_switch_on then min_on_time ≤ (now - t) / 60
       else min_off_time ≤ (now - t) / 60)) ∧
    (current_switch_on = false →
      current_temp < target_temp - hysteresis →
      ((now - t) / 60 < min_off_time →
        (calculate_control_decision current_temp target_temp hysteresis
          current_switch_on (some t) min_on_time min_off_time now).1 = false) ∧
      (min_off_time ≤ (now - t) / 60 →
        (calculate_control_decision current_temp target_temp hysteresis
          current_switch_on (some t) min_on_time min_off_time now).1 = true)) := by
  simp only [calculate_control_decision, dwell_at_least]
  constructor
  · intro hne
    cases current_switch_on <;>
      simp only [Bool.false_eq_true, if_true, if_false] <;>
      split_ifs at hne with h1 h2 h3 <;>
      simp_all
  · intro hcs hbelow
    subst hcs
    have hnotdead : ¬ (target_temp - hysteresis ≤ current_temp ∧
        current_temp < target_temp + hysteresis) := by
      intro hd
      linarith [hd.1]
    rw [if_neg hnotdead, if_pos hbelow]
    constructor
    · intro hlt
      rw [if_neg (by simp)]
      rw [if_neg (by simpa using not_le.mpr hlt)]
    · intro hge
      rw [if_neg (by simp)]
      rw [if_pos (by simpa using hge)]

/-- Witness for c1_dwell_time_enforcement: off for exactly 10 minutes
(last change at 0, now 600 seconds) with min_off_time 10 and demand at
21 degrees below the 21.5 threshold turns the actuator on. -/
theorem c1_dwell_time_enforcement_witness :
    (calculate_control_decision 21 22 0.5 false (some 0) 30 10 600).1 = true :=
  ((c1_dwell_time_enforcement 21 22 0.5 false 0 30 10 600).2
    rfl (by norm_num)).2 (by norm_num)

/-- C3 counterexample: the claim quantifies over every hysteresis, but
with hysteresis = 0 the temperature target_temp - hysteresis = 22 does
not fall into the deadband branch: it takes the at-or-above branch
(here with the switch off, reason targetReachedAlreadyOff). -/
theorem c3_boundary_counterexample :
    (calculate_control_decision 22 22 0 false none 30 10 0).2.branch
      = DecisionBranch.atOrAboveHigh ∧
    (calculate_control_decision 22 22 0 false none 30 10 0).2.branch
      ≠ DecisionBranch.deadband := by
  norm_num [calculate_control_decision, dwell_at_least, DecisionReason.branch]
  decide

/-- C3 amended: for every target_temp and every hysteresis > 0, the
decision at current_temp = target_temp + hysteresis takes the
at-or-above-turn-off-threshold branch and not the deadband branch, and
at current_temp = target_temp - hysteresis it takes the deadband branch
(inclusive lower bound), for both values of current_switch_on. -/
theorem c3_symmetric_boundary (target_temp hysteresis : ℚ)
    (current_switch_on : Bool) (last_switch_change : Option ℚ)
    (min_on_time min_off_time now : ℚ)
    (hpos : 0 < hysteresis) :
    (calculate_control_decision (target_temp + hysteresis) target_temp
        hysteresis current_switch_on last_switch_change
        min_on_time min_off_time now).2.branch
      = DecisionBranch.atOrAboveHigh ∧
    (calculate_control_decision (target_temp - hysteresis) target_temp
        hysteresis current_switch_on last_switch_change
        min_on_time min_off_time now).2.branch
      = DecisionBranch.deadband := by
  simp only [calculate_control_decision]
  constructor
  · rw [if_neg (by intro hd; linarith [hd.2])]
    rw [if_neg (by intro hb; linarith)]
    rw [if_pos (by linarith)]
    cases current_switch_on <;> split_ifs <;> rfl
  · rw [if_pos ⟨le_refl _, by linarith⟩]
    cases current_switch_on <;> rfl

/-- Witness for c3_symmetric_boundary at target 22, hysteresis 0.5,
switch on, no switch-change history. -/
theorem c3_symmetric_boundary_witness :
    (calculate_control_decision 22.5 22 0.5 true none 30 10 0).2.branch
      = DecisionBranch.atOrAboveHigh ∧
    (calculate_control_decision 21.5 22 0.5 true none 30 10 0).2.branch
      = DecisionBranch.deadband := by
  have h := c3_symmetric_boundary 22 0.5 true none 30 10 0 (by norm_num)
  norm_num at h ⊢
  exact h

/-- C4 counterexample: at target 22, hysteresis 0.5, switch off, no
switch-change history and current_temp = 21.5, the decision is not the
claimed (true, Turning ON): 21.5 equals the turn-on threshold, which
lies inside the inclusive-lower-bound deadband, so the decision holds
the switch off. -/
theorem c4_threshold_counterexample :
    calculate_control_decision 21.5 22 0.5 false none 30 10 0
      = (false, DecisionReason.deadbandMaintainOff) ∧
    (calculate_control_decision 21.5 22 0.5 false none 30 10 0).1 ≠ true := by
  norm_num [calculate_control_decision, dwell_at_least]

/-- C4 amended: with target 22, hysteresis 0.5, switch off and no
switch-change history, a current_temp strictly below the 21.5 turn-on
threshold, here 21.4, yields the decision (true, Turning ON). -/
theorem c4_turn_on_below_threshold :
    calculate_control_decision 21.4 22 0.5 false none 30 10 0
      = (true, DecisionReason.turningOn) := by
  norm_num [calculate_control_decision, dwell_at_least]

/-- C10: with every parameter other than the temperature fixed, the
desired state returned by calculate_control_decision is monotonically
non-increasing in current_temp: if it is on at temperature t, it is on
at every cooler temperature. -/
theorem c10_decision_monotone (t t2 target_temp hysteresis : ℚ)
    (current_switch_on : Bool) (last_switch_change : Option ℚ)
    (min_on_time min_off_time now : ℚ)
    (hle : t2 ≤ t)
    (hon : (calculate_control_decision t target_temp hysteresis
        current_switch_on last_switch_change min_on_time min_off_time now).1
        = true) :
    (calculate_control_decision t2 target_temp hysteresis
      current_switch_on last_switch_change min_on_time min_off_time now).1
      = true := by
  simp only [calculate_control_decision] at hon ⊢
  cases current_switch_on <;>
    split_ifs at hon ⊢ <;>
    simp_all <;> linarith

/-- Witness for c10_decision_monotone: demand at 21 degrees with no
history turns the switch on, hence so does 20 degrees. -/
theorem c10_decision_monotone_witness :
    (calculate_control_decision 20 22 0.5 false none 30 10 0).1 = true :=
  c10_decision_monotone 21 20 22 0.5 false none 30 10 0
    (by norm_num) (by norm_num [calculate_control_decision, dwell_at_least])

/-- C6: update_state writes last_switch_change exactly when the
switch_on argument differs from the stored one, in which case it
becomes the current time; with an unchanged switch state, any decision
argument leaves last_switch_change exactly as it was. -/
theorem c6_dwell_timer_only_reset_on_flip (s : ThermostatState)
    (switch_on : Bool) (decision : Option ControlDecisionMsg) (now : ℚ) :
    (update_state s switch_on decision now).1.last_switch_change
      = if switch_on = s.switch_on then s.last_switch_change else some now := by
  simp only [update_state]
  by_cases hb : switch_on = s.switch_on
  · rw [if_neg (by simp [hb]), if_pos hb]
    cases decision with
    | none => rfl
    | some d => dsimp only; split_ifs <;> rfl
  · rw [if_pos (by simp [hb]), if_neg hb]
    cases decision with
    | none => rfl
    | some d => dsimp only; split_ifs <;> rfl

/-- C7 counterexample: the claim calls hysteresis = 0.1 out of bounds
(outside the open-below interval (0.1, 2.0]) and demands rejection, but
the accepting boundary admits it: the update is accepted and replaces
the active configuration. -/
theorem c7_hysteresis_boundary_counterexample :
    (set_thermostat_config { config := default_config, state := default_state }
        { default_config with hysteresis := 0.1 }).2 = true ∧
    (set_thermostat_config { config := default_config, state := default_state }
        { default_config with hysteresis := 0.1 }).1.config
      = { default_config with hysteresis := 0.1 } ∧
    ¬ ((0.1 : ℚ) <
        ({ default_config with hysteresis := 0.1 } : ThermostatConfig).hysteresis) := by
  norm_num [set_thermostat_config, thermostat_config_valid, default_config]

/-- Configuration values outside the bounds the code enforces, stated
with the closed interval 0.1 <= hysteresis <= 2.0 (the amendment of C7),
or with eco_temp above target_temp. -/
def config_out_of_bounds (c : ThermostatConfig) : Prop :=
  ¬ (18 ≤ c.target_temp ∧ c.target_temp ≤ 24) ∨
  ¬ (18 ≤ c.eco_temp ∧ c.eco_temp ≤ 24) ∨
  ¬ ((0.1 : ℚ) ≤ c.hysteresis ∧ c.hysteresis ≤ 2) ∨
  ¬ (1 ≤ c.min_on_time ∧ c.min_on_time ≤ 120) ∨
  ¬ (1 ≤ c.min_off_time ∧ c.min_off_time ≤ 120) ∨
  ¬ (1 ≤ c.temp_sample_count ∧ c.temp_sample_count ≤ 10) ∨
  ¬ (60 ≤ c.control_interval ∧ c.control_interval ≤ 600) ∨
  c.target_temp < c.eco_temp

/-- C7 amended: a configuration update with any value out of bounds
(target_temp or eco_temp outside [18,24], hysteresis outside
[0.1, 2.0], min_on_time or min_off_time outside [1,120],
temp_sample_count outside [1,10], control_interval outside [60,600]) or
with eco_temp > target_temp is rejected at the accepting boundary, and
the previously active configuration stays in place and readable. -/
theorem c7_out_of_bounds_config_rejected (m : Manager) (c : ThermostatConfig)
    (h : config_out_of_bounds c) :
    set_thermostat_config m c = (m, false) ∧
    get_config (set_thermostat_config m c).1 = get_config m := by
  have hv : ¬ thermostat_config_valid c = true := by
    simp only [thermostat_config_valid, Bool.and_eq_true, decide_eq_true_eq]
    rintro ⟨⟨⟨⟨⟨⟨⟨h1, h2⟩, h3⟩, h4⟩, h5⟩, h6⟩, h7⟩, h8⟩
    rcases h with h | h | h | h | h | h | h | h
    · exact h h1
    · exact h h2
    · exact h h3
    · exact h h4
    · exact h h5
    · exact h h6
    · exact h h7
    · linarith
  constructor
  · simp [set_thermostat_config, hv]
  · simp [set_thermostat_config, get_config, hv]

/-- Witness for c7_out_of_bounds_config_rejected at the spec scenario
eco_temp 25 with target_temp 22: the update is rejected and the default
configuration remains. -/
theorem c7_out_of_bounds_config_rejected_witness :
    set_thermostat_config { config := default_config, state := default_state }
        { default_config with eco_temp := 25 }
      = ({ config := default_config, state := default_state }, false) :=
  (c7_out_of_bounds_config_rejected
    { config := default_config, state := default_state }
    { default_config with eco_temp := 25 }
    (Or.inr (Or.inl (by norm_num [default_config])))).1

/-- C9 counterexample: with the valid control_interval 60 and an
iteration 200 seconds old, 200 exceeds 2 x 60, so the claim calls the
loop unhealthy, but the staleness test compares against a fixed 360
seconds and reports healthy. -/
theorem c9_fixed_window_counterexample :
    control_loop_healthy 200 (some 0) = true ∧
    (2 * 60 : ℚ) < 200 - 0 ∧
    ((60 : ℚ) ≤ 60 ∧ (60 : ℚ) ≤ 600) := by
  norm_num [control_loop_healthy]

/-- C9 amended: the health check classifies the control loop as
unhealthy exactly when a last run is on record and the time since it
exceeds a fixed 360 seconds (twice the default 180 second interval),
independent of the configured control_interval. -/
theorem c9_staleness_window (now : ℚ) (last_run : Option ℚ) :
    control_loop_healthy now last_run = false ↔
      ∃ t, last_run = some t ∧ 360 < now - t := by
  cases last_run with
  | none => simp [control_loop_healthy]
  | some t =>
      by_cases h : 360 < now - t <;> simp [control_loop_healthy, h]

/-- Helper: in an AUTO or ECO iteration whose samples average to temp,
whose decision (d, r) requests a state change and whose verify read
does not report the commanded state, the iteration leaves the persisted
state alone, records the verification error, ends with one consecutive
error and has issued exactly the command d. -/
theorem auto_eco_mismatch_result (config : ThermostatConfig)
    (ts : ThermostatState) (ls : ControlLoopState) (env : IterEnv)
    (temp : ℚ) (d : Bool) (r : DecisionReason)
    (hmode : config.mode = ThermostatMode.AUTO ∨ config.mode = ThermostatMode.ECO)
    (htemps : env.temps ≠ [])
    (htemp : temp = env.temps.sum / env.temps.length)
    (hdec : calculate_control_decision temp
        (if config.mode = ThermostatMode.AUTO then config.target_temp
         else config.eco_temp)
        config.hysteresis (env.switch_output.getD false) ts.last_switch_change
        config.min_on_time config.min_off_time env.now = (d, r))
    (hdiff : d ≠ env.switch_output.getD false)
    (hver : env.verify_output ≠ some d) :
    (thermostat_control_loop_iteration config ts ls env).state = ts ∧
    (thermostat_control_loop_iteration config ts ls env).loop.last_error
      = some (LoopError.switchVerifyFailed d env.verify_output) ∧
    (thermostat_control_loop_iteration config ts ls env).loop.consecutive_errors
      = 1 ∧
    (thermostat_control_loop_iteration config ts ls env).commands = [d] := by
  rcases hmode with h | h <;>
  · simp only [h, if_pos] at hdec
    simp only [thermostat_control_loop_iteration, h]
    rw [if_pos htemps]
    simp only [← htemp]
    simp only [execute_decision, if_true, hdec]
    rw [if_pos hdiff, if_neg hver]
    exact ⟨rfl, rfl, rfl, rfl⟩

/-- C5: in an AUTO or ECO control-loop iteration whose decision (d, r)
requests a state change and whose post-settle re-read does not report
the commanded state, the persisted ThermostatState keeps its prior
value (in particular switch_on and last_switch_change), last_error is
set to the verification-mismatch message, the mismatch handler
increments consecutive_errors (the successful sample read earlier in
the iteration has reset the counter to 0, so the iteration ends at 1),
and a following iteration with the same observations re-issues the same
command. -/
theorem c5_verification_mismatch_no_update (config : ThermostatConfig)
    (ts : ThermostatState) (ls ls2 : ControlLoopState) (env : IterEnv)
    (temp : ℚ) (d : Bool) (r : DecisionReason)
    (hmode : config.mode = ThermostatMode.AUTO ∨ config.mode = ThermostatMode.ECO)
    (htemps : env.temps ≠ [])
    (htemp : temp = env.temps.sum / env.temps.length)
    (hdec : calculate_control_decision temp
        (if config.mode = ThermostatMode.AUTO then config.target_temp
         else config.eco_temp)
        config.hysteresis (env.switch_output.getD false) ts.last_switch_change
        config.min_on_time config.min_off_time env.now = (d, r))
    (hdiff : d ≠ env.switch_output.getD false)
    (hver : env.verify_output ≠ some d) :
    (thermostat_control_loop_iteration config ts ls env).state = ts ∧
    (thermostat_control_loop_iteration config ts ls env).loop.last_error
      = some (LoopError.switchVerifyFailed d env.verify_output) ∧
    (thermostat_control_loop_iteration config ts ls env).loop.consecutive_errors
      = 1 ∧
    (thermostat_control_loop_iteration config ts ls env).commands = [d] ∧
    (thermostat_control_loop_iteration config
        (thermostat_control_loop_iteration config ts ls env).state
        (thermostat_control_loop_iteration config ts ls env).loop
        env).commands = [d] ∧
    (execute_decision ts ls2 d (env.switch_output.getD false) r env).loop.consecutive_errors
      = ls2.consecutive_errors + 1 := by
  obtain ⟨h1, h2, h3, h4⟩ :=
    auto_eco_mismatch_result config ts ls env temp d r hmode htemps htemp
      hdec hdiff hver
  refine ⟨h1, h2, h3, h4, ?_, ?_⟩
  · rw [h1]
    exact (auto_eco_mismatch_result config ts
      (thermostat_control_loop_iteration config ts ls env).loop env temp d r
      hmode htemps htemp hdec hdiff hver).2.2.2
  · simp only [execute_decision]
    rw [if_pos hdiff, if_neg hver]

/-- Witness for c5_verification_mismatch_no_update: AUTO mode at the
default configuration, one 20 degree sample, actuator reading off, the
decision commands on, the verify read still reports off; the persisted
state is untouched and the error is recorded. -/
theorem c5_verification_mismatch_no_update_witness :
    (thermostat_control_loop_iteration default_config default_state
        initial_control_loop_state
        { temps := [20], switch_output := some false,
          verify_output := some false, now := 0 }).state = default_state ∧
    (thermostat_control_loop_iteration default_config default_state
        initial_control_loop_state
        { temps := [20], switch_output := some false,
          verify_output := some false, now := 0 }).loop.consecutive_errors
      = 1 := by
  have h := c5_verification_mismatch_no_update default_config default_state
    initial_control_loop_state initial_control_loop_state
    { temps := [20], switch_output := some false,
      verify_output := some false, now := 0 }
    20 true DecisionReason.turningOn
    (Or.inl rfl)
    (by simp)
    (by norm_num)
    (by norm_num [calculate_control_decision, dwell_at_least, default_config,
      default_state])
    (by simp)
    (by simp)
  exact ⟨h.1, h.2.2.1⟩

/-- C8 counterexample: first iteration after entering manual mode ON
(last_mode not yet ON, mode_action_done false), the actuator is
commanded on but the re-read reports off; the claim demands that
last_error be set and consecutive_errors incremented, yet the code
leaves last_error none and consecutive_errors 0. -/
theorem c8_manual_mismatch_counterexample :
    (thermostat_control_loop_iteration { default_config with mode := .ON }
        default_state initial_control_loop_state
        { temps := [], switch_output := some false,
          verify_output := some false, now := 0 }).loop.last_error = none ∧
    (thermostat_control_loop_iteration { default_config with mode := .ON }
        default_state initial_control_loop_state
        { temps := [], switch_output := some false,
          verify_output := some false, now := 0 }).loop.consecutive_errors
      = 0 ∧
    (thermostat_control_loop_iteration { default_config with mode := .ON }
        default_state initial_control_loop_state
        { temps := [], switch_output := some false,
          verify_output := some false, now := 0 }).commands = [true] := by
  simp [thermostat_control_loop_iteration, initial_control_loop_state,
    default_config]

/-- C8 amended: in the first control-loop iteration after entering
manual mode ON or OFF, when the actuator is commanded to the fixed
state and the post-settle re-read reports a different state, the loop
records no error (last_error and consecutive_errors are unchanged) and
does not retry within the same iteration; it leaves mode_action_done
false and the persisted state untouched, so the command is re-attempted
on the next iteration. -/
theorem c8_manual_mode_mismatch_silent (config : ThermostatConfig)
    (ts : ThermostatState) (ls : ControlLoopState) (env : IterEnv)
    (fixed : Bool)
    (hfix : (config.mode = ThermostatMode.ON ∧ fixed = true) ∨
            (config.mode = ThermostatMode.OFF ∧ fixed = false))
    (hdone : ls.last_mode ≠ some config.mode ∨ ls.mode_action_done = false)
    (hver : env.verify_output ≠ some fixed) :
    (thermostat_control_loop_iteration config ts ls env).state = ts ∧
    (thermostat_control_loop_iteration config ts ls env).loop.last_error
      = ls.last_error ∧
    (thermostat_control_loop_iteration config ts ls env).loop.consecutive_errors
      = ls.consecutive_errors ∧
    (thermostat_control_loop_iteration config ts ls env).loop.mode_action_done
      = false ∧
    (thermostat_control_loop_iteration config ts ls env).commands = [fixed] := by
  rcases hfix with ⟨hm, hf⟩ | ⟨hm, hf⟩ <;> subst hf <;>
  · by_cases hlm : ls.last_mode = some config.mode
    · have h0 : ls.mode_action_done = false := by
        rcases hdone with hd | hd
        · exact absurd hlm hd
        · exact hd
      rw [hm] at hlm
      simp [thermostat_control_loop_iteration, hm, hlm, h0, hver]
    · rw [hm] at hlm
      simp [thermostat_control_loop_iteration, hm, hlm, hver]

/-- Witness for c8_manual_mode_mismatch_silent: entering OFF mode with
the verify read still reporting on leaves the error fields untouched
and issues the single off command. -/
theorem c8_manual_mode_mismatch_silent_witness :
    (thermostat_control_loop_iteration { default_config with mode := .OFF }
        default_state initial_control_loop_state
        { temps := [], switch_output := some true,
          verify_output := some true, now := 0 }).loop.last_error = none ∧
    (thermostat_control_loop_iteration { default_config with mode := .OFF }
        default_state initial_control_loop_state
        { temps := [], switch_output := some true,
          verify_output := some true, now := 0 }).commands = [false] := by
  have h := c8_manual_mode_mismatch_silent { default_config with mode := .OFF }
    default_state initial_control_loop_state
    { temps := [], switch_output := some true,
      verify_output := some true, now := 0 }
    false
    (Or.inr ⟨rfl, rfl⟩)
    (Or.inl (by simp [initial_control_loop_state]))
    (by simp)
  exact ⟨h.2.1, h.2.2.2.2⟩
